import Mathlib

/-!
Verification of the recommendation and search core of the beauty-backend
repository, via a shallow embedding of the JavaScript source into Lean.

Conventions of the embedding:
* Mongo/Mongoose object ids are modelled as `Nat`; product records carry the
  attributes the recommendation and search core actually reads.
* A user's purchase history is modelled as the list of purchased product ids
  (the code only ever reads `p.productId`).
* JavaScript `Set` insertion (first occurrence kept) and `Map`-based
  deduplication (first key position kept, last value wins) are modelled by
  explicit folds below.
* `Array.prototype.sort` with a comparator is stable; it is modelled by
  `List.insertionSort` with the corresponding non-strict total relation,
  which produces the same output as any stable sort.
* Database fetches `Product.find({_id: {$in: ids}})` are modelled as a
  filter of an abstract catalog list; `.limit(n)` as `List.take n`.
* `JSON.parse` of the external (Gemini) response is modelled by an abstract
  `Option (List Nat)` parse result (`none` = the parse threw).
-/

namespace BeautyBackend

/-- A product record, restricted to the fields the core reads:
its identity and its `attributes.hairType` tag list. -/
structure Product where
  pid : Nat
  hairTypes : List String
  deriving DecidableEq, Repr

/-- `countCommonProducts` (src/routes/recommendations.js:8-17 and
src/unnamed/part_002:85-93): build the set of distinct product ids of each
purchase list and count how many members of the first set the second set has. -/
def countCommonProducts (purchasesA purchasesB : List Nat) : Nat :=
  let setA := purchasesA.dedup
  let setB := purchasesB.dedup
  (setA.filter (fun productId => productId ∈ setB)).length

/-- C1: the similarity score equals the cardinality of the intersection of
the two purchased-product-id sets, and is symmetric: for every pair of
purchase lists `A` and `B`, `score(A,B) = score(B,A)`. -/
theorem countCommonProducts_inter_card_and_symm (A B : List Nat) :
    countCommonProducts A B = (A.toFinset ∩ B.toFinset).card ∧
    countCommonProducts A B = countCommonProducts B A := by
  have key : ∀ X Y : List Nat,
      countCommonProducts X Y = (X.toFinset ∩ Y.toFinset).card := by
    intro X Y
    unfold countCommonProducts
    have hnd : (X.dedup.filter (fun productId => productId ∈ Y.dedup)).Nodup :=
      (List.nodup_dedup X).filter _
    rw [← List.toFinset_card_of_nodup hnd]
    congr 1
    ext x
    simp [List.mem_filter, List.mem_dedup, Finset.mem_inter, List.mem_toFinset]
  refine ⟨key A B, ?_⟩
  rw [key A B, key B A, Finset.inter_comm]

/-- JavaScript `Set` built by repeated `add` over a list: the first
occurrence of each element is kept, in insertion order. -/
def jsSetAdd (acc : List Nat) (x : Nat) : List Nat :=
  if x ∈ acc then acc else acc ++ [x]

/-- The element list of a JavaScript `Set` filled from `l` in order. -/
def jsSetOfList (l : List Nat) : List Nat :=
  l.foldl jsSetAdd []

/-- Similarity scoring (src/unnamed/part_002:225-231 and
src/routes/recommendations.js:57-62): pair each peer's purchase-id list with
its overlap score against the requester's purchase-id list `R`. -/
def similarityScores (R : List Nat) (peers : List (List Nat)) :
    List (List Nat × Nat) :=
  peers.map (fun otherUser => (otherUser, countCommonProducts R otherUser))

/-- `similarityScores.sort((a, b) => b.score - a.score)`: a stable sort,
descending by score, modelled by insertion sort with the non-strict
descending relation (stable sorts agree on their output). -/
def sortByScoreDesc (scored : List (List Nat × Nat)) :
    List (List Nat × Nat) :=
  scored.insertionSort (fun a b => b.2 ≤ a.2)

/-- `similarityScores.slice(0, k).map(s => s.user)`: the top-`k` most
similar peers' purchase histories. -/
def topKUsers (R : List Nat) (peers : List (List Nat)) (k : Nat) :
    List (List Nat) :=
  ((sortByScoreDesc (similarityScores R peers)).take k).map (fun s => s.1)

/-- The collaborative candidate-id set (src/unnamed/part_002:225-235 for the
hybrid route with k = 3, src/unnamed/part_002:353-364 and
src/routes/recommendations.js:69-80 with k = 5): every product purchased by a
top-`k` peer that is not in the requester's own purchase history, collected
into a JavaScript `Set`. -/
def collaborativeProductIds (R : List Nat) (peers : List (List Nat))
    (k : Nat) : List Nat :=
  let currentUserProducts := R.dedup
  jsSetOfList
    (((topKUsers R peers k).flatMap (fun u => u)).filter
      (fun prodId => prodId ∉ currentUserProducts))

/-- The pure collaborative route's final product list
(src/unnamed/part_002:360-364): fetch the recommended ids from the catalog,
limited to 10. -/
def collaborativeRecommendedProducts (catalog : List Product)
    (R : List Nat) (peers : List (List Nat)) : List Product :=
  (catalog.filter (fun p => p.pid ∈ collaborativeProductIds R peers 5)).take 10

theorem mem_foldl_jsSetAdd (l : List Nat) :
    ∀ (acc : List Nat) (x : Nat),
      x ∈ l.foldl jsSetAdd acc ↔ x ∈ acc ∨ x ∈ l := by
  induction l with
  | nil => simp
  | cons a t ih =>
    intro acc x
    have hstep : x ∈ jsSetAdd acc a ↔ x ∈ acc ∨ x = a := by
      unfold jsSetAdd
      split
      · next h => simp; exact fun hx => hx ▸ h
      · simp
    simp only [List.foldl_cons, ih, hstep, List.mem_cons]
    tauto

theorem mem_jsSetOfList (l : List Nat) (x : Nat) :
    x ∈ jsSetOfList l ↔ x ∈ l := by
  unfold jsSetOfList
  simp [mem_foldl_jsSetAdd]

/-- C2: no product id present in the requester's own purchase history appears
among the collaborative-source candidate ids produced from the top-`k`
similar peers. -/
theorem collaborativeProductIds_excludes_own (R : List Nat)
    (peers : List (List Nat)) (k : Nat) (pid : Nat)
    (h : pid ∈ collaborativeProductIds R peers k) : pid ∉ R := by
  unfold collaborativeProductIds at h
  rw [mem_jsSetOfList] at h
  have := (List.mem_filter.mp h).2
  simpa [List.mem_dedup] using this

/-- Witness for C2 at a concrete input: requester purchased product 5, the
single peer purchased 5 and 6; 6 is a collaborative candidate and is indeed
not in the requester's history. -/
theorem collaborativeProductIds_excludes_own_witness :
    6 ∈ collaborativeProductIds [5] [[5, 6]] 3 ∧ 6 ∉ [5] :=
  ⟨by decide, collaborativeProductIds_excludes_own [5] [[5, 6]] 3 6 (by decide)⟩

/-- C5 counterexample: with an empty requester purchase history the
collaborative route does not return an empty list for every peer population.
With one peer who purchased product 7 and product 7 in the catalog, the
route recommends product 7. -/
theorem collaborative_empty_history_counterexample :
    ¬ (∀ (catalog : List Product) (peers : List (List Nat)),
        collaborativeRecommendedProducts catalog [] peers = []) := by
  intro h
  exact absurd (h [⟨7, []⟩] [[7]]) (by decide)

theorem countCommonProducts_nil (u : List Nat) :
    countCommonProducts [] u = 0 := rfl

theorem sortByScoreDesc_all_zero (peers : List (List Nat)) :
    sortByScoreDesc (peers.map (fun u => (u, 0))) =
      peers.map (fun u => (u, 0)) := by
  apply List.Sorted.insertionSort_eq
  unfold List.Sorted
  induction peers with
  | nil => simp
  | cons a t ih =>
    simp only [List.map_cons, List.pairwise_cons]
    refine ⟨?_, ih⟩
    intro b hb
    obtain ⟨u, _, rfl⟩ := List.mem_map.mp hb
    exact le_refl 0

/-- C5 amended: with an empty requester purchase history, every peer scores
zero, the stable sort leaves the peer order unchanged, and the exclusion
filter removes nothing, so the collaborative candidate ids are exactly the
distinct products purchased by the first `k` peers in fetch order. -/
theorem collaborativeProductIds_empty_history (peers : List (List Nat))
    (k : Nat) :
    collaborativeProductIds [] peers k =
      jsSetOfList ((peers.take k).flatMap (fun u => u)) := by
  unfold collaborativeProductIds topKUsers similarityScores
  simp only [countCommonProducts_nil, sortByScoreDesc_all_zero]
  have hm : (List.take k (List.map (fun (u : List Nat) => (u, (0 : Nat)))
      peers)).map (fun s => s.1) = List.take k peers := by
    rw [← List.map_take, List.map_map]
    simp [Function.comp_def]
  rw [hm]
  congr 1
  simp [List.filter_eq_self]

/-- Content-based candidates (src/unnamed/part_002:204-210): when the user's
`preferences.hairType` is truthy (present and non-empty), all catalog
products whose `attributes.hairType` contains it, limited to `lim`;
otherwise the empty list. -/
def contentBasedCandidates (catalog : List Product) (hairType : Option String)
    (lim : Nat) : List Product :=
  if hairType.getD "" = "" then []
  else (catalog.filter (fun p => hairType.getD "" ∈ p.hairTypes)).take lim

/-- Collaborative candidates fetch in the hybrid route
(src/unnamed/part_002:237-240): products whose id is among the collaborative
candidate ids of the top-3 peers, limited to 20. -/
def collaborativeCandidates (catalog : List Product) (R : List Nat)
    (peers : List (List Nat)) : List Product :=
  (catalog.filter (fun p => p.pid ∈ collaborativeProductIds R peers 3)).take 20

/-- One step of `new Map(allCandidates.map(p => [p._id.toString(), p]))`:
`set` on an existing key keeps the key's position and replaces the value;
a new key is appended. -/
def mapUpsert (acc : List Product) (p : Product) : List Product :=
  if acc.any (fun q => q.pid = p.pid) then
    acc.map (fun q => if q.pid = p.pid then p else q)
  else acc ++ [p]

/-- `uniqueCandidates` (src/unnamed/part_002:243-246): deduplicate the merged
candidate list by product identity via a JavaScript `Map`. -/
def uniqueCandidates (allCandidates : List Product) : List Product :=
  allCandidates.foldl mapUpsert []

/-- The merged candidate set of the hybrid (blended) route:
content ++ collaborative, deduplicated by identity. -/
def hybridUniqueCandidates (catalog : List Product) (hairType : Option String)
    (R : List Nat) (peers : List (List Nat)) : List Product :=
  uniqueCandidates
    (contentBasedCandidates catalog hairType 20 ++
      collaborativeCandidates catalog R peers)

theorem mapUpsert_length (acc : List Product) (p : Product) :
    (mapUpsert acc p).length ≤ acc.length + 1 := by
  unfold mapUpsert
  split
  · rw [List.length_map]; omega
  · simp

theorem foldl_mapUpsert_length (l : List Product) :
    ∀ acc : List Product,
      (l.foldl mapUpsert acc).length ≤ acc.length + l.length := by
  induction l with
  | nil => simp
  | cons a t ih =>
    intro acc
    calc ((a :: t).foldl mapUpsert acc).length
        ≤ (mapUpsert acc a).length + t.length := ih (mapUpsert acc a)
      _ ≤ acc.length + 1 + t.length := by
          have := mapUpsert_length acc a; omega
      _ = acc.length + (a :: t).length := by simp; omega

theorem mapUpsert_pids_nodup (acc : List Product) (p : Product)
    (h : (acc.map Product.pid).Nodup) :
    ((mapUpsert acc p).map Product.pid).Nodup := by
  unfold mapUpsert
  split
  · next _ =>
    have : (acc.map (fun q => if q.pid = p.pid then p else q)).map Product.pid
        = acc.map Product.pid := by
      rw [List.map_map]
      refine List.map_congr_left ?_
      intro q _
      by_cases hq : q.pid = p.pid
      · simp [Function.comp, hq]
      · simp [Function.comp, hq]
    rw [this]; exact h
  · next hne =>
    rw [List.map_append]
    simp only [List.map_cons, List.map_nil]
    rw [List.nodup_append]
    refine ⟨h, List.nodup_singleton _, ?_⟩
    intro x hx
    simp only [List.mem_singleton]
    intro hxp
    obtain ⟨q, hq, rfl⟩ := List.mem_map.mp hx
    exact hne (List.any_eq_true.mpr ⟨q, hq, by simp [hxp]⟩)

theorem foldl_mapUpsert_pids_nodup (l : List Product) :
    ∀ acc : List Product, (acc.map Product.pid).Nodup →
      ((l.foldl mapUpsert acc).map Product.pid).Nodup := by
  induction l with
  | nil => intro acc h; simpa using h
  | cons a t ih =>
    intro acc h
    exact ih (mapUpsert acc a) (mapUpsert_pids_nodup acc a h)

/-- C3: the merged candidate set of the blended route has at most
`contentLimit + collaborativeLimit = 20 + 20` products, and no product
identity appears twice in it. -/
theorem hybridUniqueCandidates_bound (catalog : List Product)
    (hairType : Option String) (R : List Nat) (peers : List (List Nat)) :
    (hybridUniqueCandidates catalog hairType R peers).length ≤ 20 + 20 ∧
    ((hybridUniqueCandidates catalog hairType R peers).map Product.pid).Nodup := by
  constructor
  · unfold hybridUniqueCandidates uniqueCandidates
    have hlen := foldl_mapUpsert_length
      (contentBasedCandidates catalog hairType 20 ++
        collaborativeCandidates catalog R peers) []
    have hc : (contentBasedCandidates catalog hairType 20).length ≤ 20 := by
      unfold contentBasedCandidates
      split
      · simp
      · exact (List.length_take_le _ _).trans (by simp)
    have hk : (collaborativeCandidates catalog R peers).length ≤ 20 := by
      unfold collaborativeCandidates
      exact (List.length_take_le _ _).trans (by simp)
    rw [List.length_nil, List.length_append] at hlen
    omega
  · exact foldl_mapUpsert_pids_nodup _ [] (by simp)

/-- `rankedProductIds` of the hybrid route (src/unnamed/part_002:283-289):
`JSON.parse` of the external response is modelled by `parsed : Option (List
Nat)` (`none` = the parse threw); on failure the catch block substitutes the
first 10 unique candidates' ids, in merge order, and the handler continues
without surfacing an error. -/
def hybridRankedProductIds (parsed : Option (List Nat))
    (uniq : List Product) : List Nat :=
  match parsed with
  | some ids => ids
  | none => (uniq.take 10).map (fun p => p.pid)

/-- `Product.find({ _id: { $in: ids } })`: the catalog records whose id is
in `ids`. -/
def fetchByIds (catalog : List Product) (ids : List Nat) : List Product :=
  catalog.filter (fun p => p.pid ∈ ids)

/-- `sortedRecommendations` / `sortedProducts`
(src/unnamed/part_002:296-298 and 180-182): map each ranked id to the first
fetched record with that id and drop ids that match nothing
(`.map(id => fetched.find(...)).filter(Boolean)`). -/
def sortedByRanking (rankedIds : List Nat) (fetched : List Product) :
    List Product :=
  rankedIds.filterMap (fun id => fetched.find? (fun p => p.pid = id))

/-- The tail of the hybrid handler: compute `rankedProductIds`, fetch those
ids from the catalog, and order the fetch result by the ranking. -/
def hybridResponse (catalog : List Product) (parsed : Option (List Nat))
    (uniq : List Product) : List Product :=
  sortedByRanking (hybridRankedProductIds parsed uniq)
    (fetchByIds catalog (hybridRankedProductIds parsed uniq))

/-- C4: when the external reranker's response fails to parse as JSON, the
hybrid adapter's ordering equals the deterministic fallback — the first 10
unique candidates in merge order — and is non-empty whenever the candidate
set is non-empty.  `hybridRankedProductIds` is a total function: the parse
failure is absorbed by the catch block, never surfaced as an error. -/
theorem hybridRankedProductIds_parse_failure (uniq : List Product)
    (h : uniq ≠ []) :
    hybridRankedProductIds none uniq = (uniq.take 10).map (fun p => p.pid) ∧
    hybridRankedProductIds none uniq ≠ [] := by
  refine ⟨rfl, ?_⟩
  unfold hybridRankedProductIds
  simp only [ne_eq, List.map_eq_nil_iff, List.take_eq_nil_iff]
  push_neg
  exact ⟨by omega, h⟩

/-- Witness for C4 at a concrete input: one candidate, garbage response. -/
theorem hybridRankedProductIds_parse_failure_witness :
    hybridRankedProductIds none [⟨1, []⟩] =
      (([⟨1, []⟩] : List Product).take 10).map (fun p => p.pid) ∧
    hybridRankedProductIds none [⟨1, []⟩] ≠ [] :=
  hybridRankedProductIds_parse_failure [⟨1, []⟩] (by decide)

/-- C9 counterexample: identifiers returned by the external reranker are
mapped against the catalog fetch, not against the candidate set.  With
catalog products 1 and 5, candidate set {1}, and external ranking [5], the
code returns product 5 — a non-candidate — while the claim requires the
unmatched identifier 5 to be dropped. -/
theorem sortedByRanking_restricts_to_candidates_false :
    ¬ (∀ (catalog candidates : List Product) (ids : List Nat),
        hybridResponse catalog (some ids) candidates =
          ids.filterMap (fun id => candidates.find? (fun p => p.pid = id))) := by
  intro h
  exact absurd (h [⟨1, []⟩, ⟨5, []⟩] [⟨1, []⟩] [5]) (by decide)

theorem find?_fetchByIds (catalog : List Product) (ids : List Nat) (id : Nat)
    (hid : id ∈ ids) :
    (fetchByIds catalog ids).find? (fun p => p.pid = id) =
      catalog.find? (fun p => p.pid = id) := by
  unfold fetchByIds
  induction catalog with
  | nil => simp
  | cons p t ih =>
    by_cases hp : p.pid = id
    · have hmem : p.pid ∈ ids := hp ▸ hid
      rw [List.filter_cons_of_pos (by simpa using hmem)]
      rw [List.find?_cons_of_pos _ (by simpa using hp),
        List.find?_cons_of_pos _ (by simpa using hp)]
    · by_cases hmem : p.pid ∈ ids
      · rw [List.filter_cons_of_pos (by simpa using hmem)]
        rw [List.find?_cons_of_neg _ (by simpa using hp),
          List.find?_cons_of_neg _ (by simpa using hp)]
        exact ih
      · rw [List.filter_cons_of_neg (by simpa using hmem)]
        rw [List.find?_cons_of_neg _ (by simpa using hp)]
        exact ih

/-- C9 amended: the adapter maps each identifier returned by the external
reranker to the first record of the *catalog fetch* with that id — not of
the candidate set — preserving the returned order and dropping identifiers
that match no catalog product.  Non-candidate catalog products whose ids the
reranker returns are therefore included, not dropped. -/
theorem hybridResponse_maps_ids_to_catalog (catalog : List Product)
    (uniq : List Product) (ids : List Nat) :
    hybridResponse catalog (some ids) uniq =
      ids.filterMap (fun id => catalog.find? (fun p => p.pid = id)) := by
  unfold hybridResponse sortedByRanking hybridRankedProductIds
  exact List.filterMap_congr (fun id hid => find?_fetchByIds catalog ids id hid)

/-- The fields of a user record read by the recommendation routes. -/
structure UserRec where
  uid : Nat
  hairType : Option String
  purchaseHistory : List Nat
  deriving DecidableEq, Repr

/-- A route outcome: either an HTTP error status with its message, or a
JSON product list. -/
abbrev RouteResult := Except (Nat × String) (List Product)

/-- The pure content-based route (src/unnamed/part_002:312-322, identical
body in src/routes/recommendations.js:26-37): 404 when the user is missing,
400 `User preferences not set` when `preferences.hairType` is falsy,
otherwise the first 10 catalog products matching the hair type. -/
def contentBasedRoute (user? : Option UserRec) (catalog : List Product) :
    RouteResult :=
  match user? with
  | none => .error (404, "User not found")
  | some user =>
    if user.hairType.getD "" = "" then
      .error (400, "User preferences not set")
    else .ok (contentBasedCandidates catalog user.hairType 10)

/-- The hybrid route (src/unnamed/part_002:191-303): 404 when the user is
missing; otherwise merge content-based (limit 20, skipped when hairType is
falsy) and collaborative (top-3 peers, limit 20) candidates, rerank via the
external call (`parsed`), and respond 200 with the ordered products. -/
def hybridRoute (user? : Option UserRec) (catalog : List Product)
    (peers : List (List Nat)) (parsed : Option (List Nat)) : RouteResult :=
  match user? with
  | none => .error (404, "User not found")
  | some user =>
    .ok (hybridResponse catalog parsed
      (hybridUniqueCandidates catalog user.hairType user.purchaseHistory peers))

/-- C6: a user without a declared hairType gets a 400 `User preferences not
set` from the pure content-based route, while the hybrid route still
succeeds, its content-based source contributing zero candidates. -/
theorem missing_hairType_behavior (user : UserRec) (catalog : List Product)
    (peers : List (List Nat)) (parsed : Option (List Nat))
    (h : user.hairType.getD "" = "") :
    contentBasedRoute (some user) catalog =
      .error (400, "User preferences not set") ∧
    contentBasedCandidates catalog user.hairType 20 = [] ∧
    hybridRoute (some user) catalog peers parsed =
      .ok (hybridResponse catalog parsed
        (uniqueCandidates (collaborativeCandidates catalog
          user.purchaseHistory peers))) := by
  refine ⟨?_, ?_, ?_⟩
  · simp [contentBasedRoute, h]
  · simp [contentBasedCandidates, h]
  · simp [hybridRoute, hybridUniqueCandidates, contentBasedCandidates, h]

/-- Witness for C6: a concrete user with no hairType preference. -/
theorem missing_hairType_behavior_witness :
    contentBasedRoute (some ⟨1, none, [2]⟩) [⟨2, ["dry"]⟩] =
      .error (400, "User preferences not set") ∧
    contentBasedCandidates [⟨2, ["dry"]⟩] (none : Option String) 20 = [] ∧
    hybridRoute (some ⟨1, none, [2]⟩) [⟨2, ["dry"]⟩] [[2, 3]] none =
      .ok (hybridResponse [⟨2, ["dry"]⟩] none
        (uniqueCandidates (collaborativeCandidates [⟨2, ["dry"]⟩] [2] [[2, 3]]))) :=
  missing_hairType_behavior ⟨1, none, [2]⟩ [⟨2, ["dry"]⟩] [[2, 3]] none rfl

/-- The `/content-based/:userId` route (src/routes/recommendations.js:20-40):
a caller whose authenticated id differs from the path parameter is rejected
with 403 Forbidden before any lookup or computation. -/
def contentBasedUserRoute (authUserId paramUserId : Nat)
    (user? : Option UserRec) (catalog : List Product) : RouteResult :=
  if authUserId ≠ paramUserId then .error (403, "Forbidden")
  else contentBasedRoute user? catalog

/-- The `/collaborative/:userId` route (src/routes/recommendations.js:43-90):
same ownership check, then the collaborative pipeline (top-5 peers, limit
10). -/
def collaborativeUserRoute (authUserId paramUserId : Nat)
    (user? : Option UserRec) (catalog : List Product)
    (peers : List (List Nat)) : RouteResult :=
  if authUserId ≠ paramUserId then .error (403, "Forbidden")
  else
    match user? with
    | none => .error (404, "User not found")
    | some user =>
      .ok (collaborativeRecommendedProducts catalog user.purchaseHistory peers)

/-- C10: whenever the authenticated caller's id differs from the `:userId`
path parameter, both per-user recommendation routes answer 403 Forbidden,
whatever the stores hold — no recommendation is computed or returned. -/
theorem user_routes_forbidden (authUserId paramUserId : Nat)
    (user? : Option UserRec) (catalog : List Product)
    (peers : List (List Nat)) (h : authUserId ≠ paramUserId) :
    contentBasedUserRoute authUserId paramUserId user? catalog =
      .error (403, "Forbidden") ∧
    collaborativeUserRoute authUserId paramUserId user? catalog peers =
      .error (403, "Forbidden") := by
  unfold contentBasedUserRoute collaborativeUserRoute
  rw [if_pos h, if_pos h]
  exact ⟨rfl, rfl⟩

/-- Witness for C10: caller 1 asking for user 2's recommendations. -/
theorem user_routes_forbidden_witness :
    contentBasedUserRoute 1 2 (some ⟨2, some "dry", []⟩) [⟨3, ["dry"]⟩] =
      .error (403, "Forbidden") ∧
    collaborativeUserRoute 1 2 (some ⟨2, some "dry", []⟩) [⟨3, ["dry"]⟩] [[3]] =
      .error (403, "Forbidden") :=
  user_routes_forbidden 1 2 (some ⟨2, some "dry", []⟩) [⟨3, ["dry"]⟩] [[3]]
    (by decide)

/-- Value of a non-empty decimal digit string. -/
def digitsValue (ds : List Char) : Nat :=
  ds.foldl (fun acc c => acc * 10 + (c.toNat - '0'.toNat)) 0

/-- The maximal leading digit run of `cs`, as a number; `none` when there is
no leading digit (JavaScript `NaN`). -/
def parseIntDigits (cs : List Char) : Option Nat :=
  if (cs.takeWhile Char.isDigit).isEmpty then none
  else some (digitsValue (cs.takeWhile Char.isDigit))

/-- JavaScript `parseInt(s)` (radix 10, as the search route uses it): skip
leading spaces, accept an optional sign, read the maximal digit prefix;
`none` models `NaN`. -/
def jsParseInt (s : String) : Option Int :=
  match s.data.dropWhile (fun c => c = ' ') with
  | '-' :: rest => (parseIntDigits rest).map (fun n => -(n : Int))
  | '+' :: rest => (parseIntDigits rest).map (fun n => (n : Int))
  | cs => (parseIntDigits cs).map (fun n => (n : Int))

/-- The `page` value of the search route (src/unnamed/part_007:259-272 and
352-377): the destructuring default `page = 1` applies only when the query
parameter is absent; a present value goes through `parseInt(page)` with no
further check, and `currentPage` echoes that value. -/
def pageParam (page : Option String) : Option Int :=
  match page with
  | none => some 1
  | some s => jsParseInt s

/-- The `limit` value of the search route: destructuring default 10,
otherwise `parseInt(limit)`. -/
def limitParam (lim : Option String) : Option Int :=
  match lim with
  | none => some 10
  | some s => jsParseInt s

/-- C7 counterexample: a present but non-numeric `page` value is not coerced
to a positive integer: `parseInt("abc")` is `NaN`, so the pagination window
and the echoed `currentPage` are `NaN`, refuting the claim that every search
request yields a positive-integer page. -/
theorem pageParam_positive_counterexample :
    ¬ (∀ page : Option String,
        ∃ k : Int, pageParam page = some k ∧ 1 ≤ k) := by
  intro h
  obtain ⟨k, hk, -⟩ := h (some "abc")
  rw [show pageParam (some "abc") = none from rfl] at hk
  exact Option.noConfusion hk

/-- C7 amended: only an absent `page` parameter is defaulted (to 1); a
present value flows through `parseInt` unchecked, so the compiled
`currentPage` is a positive integer exactly when the parameter is absent or
its `parseInt` result is a positive integer — non-numeric input yields
`NaN` and non-positive numeric input is used as-is. -/
theorem pageParam_positive_iff (page : Option String) :
    (∃ k : Int, pageParam page = some k ∧ 1 ≤ k) ↔
      (page = none ∨
        ∃ s, page = some s ∧ ∃ k : Int, jsParseInt s = some k ∧ 1 ≤ k) := by
  cases page with
  | none =>
    constructor
    · intro _; exact Or.inl rfl
    · intro _; exact ⟨1, rfl, le_refl 1⟩
  | some s =>
    constructor
    · intro ⟨k, hk, h1⟩
      exact Or.inr ⟨s, rfl, k, hk, h1⟩
    · rintro (hcontra | ⟨s', hs', k, hk, h1⟩)
      · exact Option.noConfusion hcontra
      · obtain rfl : s' = s := by injection hs' with h; exact h.symm
        exact ⟨k, hk, h1⟩

/-- Witness for the amended C7: `page = "5"` parses to the positive 5. -/
theorem pageParam_positive_iff_witness :
    ∃ k : Int, pageParam (some "5") = some k ∧ 1 ≤ k :=
  (pageParam_positive_iff (some "5")).mpr
    (Or.inr ⟨"5", rfl, 5, rfl, by norm_num⟩)

/-- `totalPages` of the search response (src/unnamed/part_007:363):
`Math.ceil(totalProducts / parseInt(limit))`, for a positive integer limit,
in the usual natural-number ceiling-division form. -/
def totalPagesCalc (totalProducts limitVal : Nat) : Nat :=
  (totalProducts + limitVal - 1) / limitVal

/-- `hasNextPage: parseInt(page) < totalPages`
(src/unnamed/part_007:370). -/
def hasNextPage (page totalProducts limitVal : Nat) : Bool :=
  page < totalPagesCalc totalProducts limitVal

/-- `hasPrevPage: parseInt(page) > 1` (src/unnamed/part_007:371). -/
def hasPrevPage (page : Nat) : Bool :=
  1 < page

/-- C8: for positive `limit`, `totalPages` is the exact rational ceiling of
`totalProducts / limit`, `hasNextPage` is `page < totalPages`, `hasPrevPage`
is `page > 1`, and `totalProducts = 0` gives `totalPages = 0` with
`hasNextPage = false`. -/
theorem pagination_consistency (page limitVal totalProducts : Nat)
    (hl : 0 < limitVal) :
    totalPagesCalc totalProducts limitVal =
      ⌈(totalProducts : ℚ) / (limitVal : ℚ)⌉₊ ∧
    (hasNextPage page totalProducts limitVal = true ↔
      page < totalPagesCalc totalProducts limitVal) ∧
    (hasPrevPage page = true ↔ 1 < page) ∧
    (totalProducts = 0 →
      totalPagesCalc totalProducts limitVal = 0 ∧
      hasNextPage page totalProducts limitVal = false) := by
  have hceil : totalPagesCalc totalProducts limitVal =
      ⌈(totalProducts : ℚ) / (limitVal : ℚ)⌉₊ := by
    refine (eq_of_forall_ge_iff fun n => ?_).symm
    rw [Nat.ceil_le, div_le_iff₀ (by exact_mod_cast hl)]
    unfold totalPagesCalc
    rw [Nat.div_le_iff_le_mul_add_pred hl]
    constructor
    · intro hq
      have h2 : (totalProducts : ℚ) ≤ ((limitVal * n : ℕ) : ℚ) := by
        push_cast
        linarith
      have h3 : totalProducts ≤ limitVal * n := by exact_mod_cast h2
      omega
    · intro hq
      have h2 : totalProducts ≤ limitVal * n := by omega
      have h3 : (totalProducts : ℚ) ≤ ((limitVal * n : ℕ) : ℚ) := by
        exact_mod_cast h2
      push_cast at h3
      linarith
  refine ⟨hceil, by simp [hasNextPage], by simp [hasPrevPage], ?_⟩
  rintro rfl
  have hz : totalPagesCalc 0 limitVal = 0 := by
    unfold totalPagesCalc
    exact Nat.div_eq_of_lt (by omega)
  refine ⟨hz, ?_⟩
  simp [hasNextPage, hz]

/-- Witness for C8 at `page = 2`, `limit = 5`, `totalProducts = 12`:
`totalPages = 3`, `hasNextPage = true`, `hasPrevPage = true`. -/
theorem pagination_consistency_witness :
    totalPagesCalc 12 5 = ⌈(12 : ℚ) / (5 : ℚ)⌉₊ ∧
    (hasNextPage 2 12 5 = true ↔ 2 < totalPagesCalc 12 5) ∧
    (hasPrevPage 2 = true ↔ 1 < 2) ∧
    ((12 : Nat) = 0 → totalPagesCalc 12 5 = 0 ∧ hasNextPage 2 12 5 = false) := by
  have h := pagination_consistency 2 5 12 (by norm_num)
  simpa using h

end BeautyBackend
